import Mathlib

/-!
Shallow embedding of the ec2-github-runner GitHub action (Go sources:
main input dispatch in part_000, AWS collaborator functions in part_001).
External AWS services (EC2, IAM, SSM) are modelled as response oracles;
the observable behaviour of each function (API calls, log lines, sleeps,
outputs) is returned as an explicit trace of events.  Poll loops that the
Go code runs against wall-clock time are modelled with explicit fuel: a
result of `none` means the loop was still running when the fuel ran out
(the Go loop has made no exit decision by then).
-/

namespace EC2Runner

/-- Observable events of the program: AWS API calls, log lines emitted
through the githubactions `action`, sleeps, and action outputs. -/
inductive Event where
  | describeInstances (k : Nat)
  | sleep (secs : Nat)
  | info (msg : String)
  | warning (msg : String)
  | group (name : String)
  | endGroup
  | setOutput (key value : String)
  | fatalLog (msg : String)
  | runInstances
  | listInstanceProfiles
  | createInstanceProfile (name : String)
  | addRoleToInstanceProfile (profileName roleName : String)
  | describeInstanceInformation (k : Nat)
  | sendCommand (instanceId command : String)
  | getCommandInvocation (k : Nat)
  | terminateInstances (instanceId : String)
deriving DecidableEq, Repr

/-- One entry of an SSM DescribeInstanceInformation response
(`ssmTypes.InstanceInformation`): the instance id and its ping status. -/
structure InstanceInfo where
  instanceId : String
  pingStatus : String
deriving DecidableEq, Repr

/-- `ssmTypes.PingStatusOnline`. -/
def pingStatusOnline : String := "Online"

/-- The SSM agent-registration match from part_001 line 206:
the entry has the wanted instance id and ping status Online. -/
def matchesOnline (ec2InstanceId : String) (info : InstanceInfo) : Bool :=
  info.instanceId == ec2InstanceId && info.pingStatus == pingStatusOnline

/-- Loop body of `IsSSMAgentRegistered` (part_001 lines 198-217).
`describe k` is the response of the k-th DescribeInstanceInformation call;
`now` is the elapsed time, advanced by `interval` at each sleep; the loop
runs while `now < timeout` (Go: `time.Now().Before(endTime)`).  `fuel`
bounds the modelled iterations; `none` means fuel ran out mid-loop. -/
def agentLoop (describe : Nat → Except String (List InstanceInfo))
    (ec2InstanceId : String) (timeout interval : Nat) :
    Nat → Nat → Nat → Option (Except String Bool) × List Event
  | _, _, 0 => (none, [])
  | k, now, fuel+1 =>
    if now < timeout then
      match describe k with
      | .error e => (some (.error e), [.describeInstanceInformation k])
      | .ok infos =>
        if infos.any (matchesOnline ec2InstanceId) then
          (some (.ok true),
           [.describeInstanceInformation k,
            .info ("SSM agent is registered and online for instance " ++ ec2InstanceId)])
        else
          let r := agentLoop describe ec2InstanceId timeout interval (k+1) (now + interval) fuel
          (r.1, .describeInstanceInformation k
                :: .info ("SSM agent is not registered or not online for instance "
                            ++ ec2InstanceId ++ ". Waiting...")
                :: .sleep interval :: r.2)
    else
      (some (.ok false),
       [.info ("Timeout reached. SSM agent is not registered for instance " ++ ec2InstanceId)])

/-- `IsSSMAgentRegistered` (part_001 lines 186-218): polls
DescribeInstanceInformation every `interval` seconds until a matching
online entry appears or `timeout` elapses.  Fuel `timeout + 1` covers all
iterations whenever `interval ≥ 1` (the loop advances `now` by at least 1
per iteration and makes at most `timeout` polls plus the final check). -/
def IsSSMAgentRegistered (describe : Nat → Except String (List InstanceInfo))
    (ec2InstanceId : String) (timeout interval : Nat) :
    Option (Except String Bool) × List Event :=
  agentLoop describe ec2InstanceId timeout interval 0 0 (timeout + 1)

/-- Loop body of `WaitForInstanceRunning` (part_001 lines 71-82).
`describe k` is the state name from the k-th DescribeInstances response
(`resp.Reservations[0].Instances[0].State.Name`), or the API error.
The Go loop has no deadline: it only stops on a describe error or on
observing the state running, so `none` (fuel ran out) models a loop that
is still polling. -/
def waitLoop (describe : Nat → Except String String) (instanceId : String) :
    Nat → Nat → Option (Except String Unit) × List Event
  | _, 0 => (none, [])
  | k, fuel+1 =>
    match describe k with
    | .error e =>
        (some (.error ("error describing instance " ++ instanceId ++ ": " ++ e)),
         [.describeInstances k])
    | .ok st =>
      if st = "running" then
        (some (.ok ()),
         [.describeInstances k, .info ("Instance state: " ++ st),
          .info ("Instance " ++ instanceId ++ " is now running.")])
      else
        let r := waitLoop describe instanceId (k+1) fuel
        (r.1, .describeInstances k :: .info ("Instance state: " ++ st) :: .sleep 5 :: r.2)

/-- `WaitForInstanceRunning` (part_001 lines 66-85). -/
def WaitForInstanceRunning (describe : Nat → Except String String)
    (instanceId : String) (fuel : Nat) : Option (Except String Unit) × List Event :=
  waitLoop describe instanceId 0 fuel

/-- An IAM instance profile (`iamTypes.InstanceProfile`): its name and
the names of its attached roles. -/
structure InstanceProfile where
  instanceProfileName : String
  roles : List String
deriving DecidableEq, Repr

/-- Responses of the IAM collaborator for one `GetOrCreateInstanceProfile`
call: the ListInstanceProfiles answer and the outcomes of
CreateInstanceProfile / AddRoleToInstanceProfile for given names. -/
structure IAMResponses where
  listProfiles : Except String (List InstanceProfile)
  createProfile : String → Except String Unit
  attachRole : String → String → Except String Unit

/-- The nested profile/role scan of part_001 lines 96-103: the first
listed profile one of whose roles has exactly the wanted role name. -/
def findProfileWithRole (profiles : List InstanceProfile) (iamRoleName : String) :
    Option InstanceProfile :=
  profiles.find? (fun p => p.roles.any (fun r => r == iamRoleName))

/-- `GetOrCreateInstanceProfile` (part_001 lines 90-123). -/
def GetOrCreateInstanceProfile (iam : IAMResponses) (iamRoleName : String) :
    Except String String × List Event :=
  match iam.listProfiles with
  | .error e => (.error ("error listing instance profiles: " ++ e), [.listInstanceProfiles])
  | .ok profiles =>
    match findProfileWithRole profiles iamRoleName with
    | some p =>
        (.ok p.instanceProfileName,
         [.listInstanceProfiles,
          .info ("Instance profile for IAM role " ++ iamRoleName ++ " already exists.")])
    | none =>
      match iam.createProfile iamRoleName with
      | .error e =>
          (.error ("error creating instance profile: " ++ e),
           [.listInstanceProfiles, .createInstanceProfile iamRoleName])
      | .ok _ =>
        match iam.attachRole iamRoleName iamRoleName with
        | .error e =>
            (.error ("error attaching role to instance profile: " ++ e),
             [.listInstanceProfiles, .createInstanceProfile iamRoleName,
              .info ("Created instance profile " ++ iamRoleName),
              .addRoleToInstanceProfile iamRoleName iamRoleName])
        | .ok _ =>
            (.ok iamRoleName,
             [.listInstanceProfiles, .createInstanceProfile iamRoleName,
              .info ("Created instance profile " ++ iamRoleName),
              .addRoleToInstanceProfile iamRoleName iamRoleName,
              .info ("Attached role " ++ iamRoleName ++ " to instance profile " ++ iamRoleName)])

/-- An honest IAM collaborator over a current profile list: listing
reports the current profiles and create/attach requests succeed. -/
def honestIAM (s : List InstanceProfile) : IAMResponses where
  listProfiles := .ok s
  createProfile := fun _ => .ok ()
  attachRole := fun _ _ => .ok ()

/-- Effect of an AddRoleToInstanceProfile call on one listed profile:
profiles named `p` gain role `r`. -/
def attachRoleFn (p r : String) (q : InstanceProfile) : InstanceProfile :=
  if q.instanceProfileName == p then ⟨q.instanceProfileName, q.roles ++ [r]⟩ else q

/-- State effect of one traced event on the IAM profile list: a create
call appends an empty profile of that name, an attach call adds the role
to every profile of that name, everything else leaves the list alone. -/
def applyIAMCall (s : List InstanceProfile) : Event → List InstanceProfile
  | .createInstanceProfile n => s ++ [⟨n, []⟩]
  | .addRoleToInstanceProfile p r => s.map (attachRoleFn p r)
  | _ => s

/-- Replay of a trace of events against the IAM profile list. -/
def applyIAMCalls (s : List InstanceProfile) (evs : List Event) : List InstanceProfile :=
  evs.foldl applyIAMCall s

/-- One parsed EC2 tag specification (`ec2Types.TagSpecification`). -/
structure TagSpec where
  resourceType : String
  tags : List (String × String)
deriving DecidableEq, Repr

/-- `*ssm.GetCommandInvocationOutput`, restricted to the fields the
program reads. -/
structure InvocationDetails where
  responseCode : Int
  status : String
  standardOutputContent : String
  standardErrorContent : String
deriving DecidableEq, Repr

/-- Terminal command-invocation statuses (spec section 4.4). -/
def isTerminalStatus (s : String) : Bool := s == "Success" || s == "Failed"

/-- Modelled from the spec: the AWS SDK `CommandExecutedWaiter` used by
`GetCommandInvocationDetails` is not part of this repository; per the
spec it blocks up to `maxWait` for the invocation to reach a terminal
status (success/failed) and fails with a timeout error if the status is
not resolved in time.  `poll k` is the k-th observed invocation value;
one poll is modelled per second of wait. -/
def commandWaiter (poll : Nat → InvocationDetails) :
    Nat → Nat → Except String InvocationDetails × List Event
  | _, 0 => (.error "timed out waiting for command invocation to complete", [])
  | k, fuel+1 =>
    if isTerminalStatus (poll k).status then
      (.ok (poll k), [.getCommandInvocation k])
    else
      let r := commandWaiter poll (k+1) fuel
      (r.1, .getCommandInvocation k :: r.2)

/-- `GetCommandInvocationDetails` (part_001 lines 174-181): runs the SDK
command-executed waiter with a deadline of `maxWaitTime` seconds. -/
def GetCommandInvocationDetails (poll : Nat → InvocationDetails) (maxWaitTime : Int) :
    Except String InvocationDetails × List Event :=
  commandWaiter poll 0 maxWaitTime.toNat

/-- Responses of the SSM collaborator: registration-poll answers, the
SendCommand answer, and the invocation values seen by the waiter. -/
structure SSMOracle where
  describeInfo : Nat → Except String (List InstanceInfo)
  sendCommandResult : Except String String
  pollInvocation : Nat → InvocationDetails

/-- The invocation-details log group of part_001 lines 157-166: status,
response code and stderr are always logged in full; stdout is logged in
full only when shorter than 1000 characters, otherwise replaced by a
placeholder. -/
def execLogs (d : InvocationDetails) : List Event :=
  [.group "Command invocation details",
   .info ("ResponseCode: " ++ toString d.responseCode),
   .info ("Status: " ++ d.status),
   .info ("StdError: " ++ d.standardErrorContent)]
  ++ (if d.standardOutputContent.length < 1000 then
        [.info ("StdOutput: " ++ d.standardOutputContent)]
      else
        [.info "(enable debug to see full output)"])
  ++ [.endGroup]

/-- `ExecuteCommandOnEC2Instance` (part_001 lines 129-169): checks agent
registration (timeout 60s, interval 5s), fails without dispatching when
the agent is not registered, then sends the command and waits for the
invocation details; the result of the command itself is only logged. -/
def ExecuteCommandOnEC2Instance (o : SSMOracle) (ec2InstanceId command : String)
    (commandMaxWaitTime : Int) : Option (Except String String) × List Event :=
  match IsSSMAgentRegistered o.describeInfo ec2InstanceId 60 5 with
  | (none, tr) => (none, tr)
  | (some (.error e), tr) => (some (.error e), tr)
  | (some (.ok false), tr) =>
      (some (.error ("SSM agent is not registered or online for instance " ++ ec2InstanceId)), tr)
  | (some (.ok true), tr) =>
    match o.sendCommandResult with
    | .error e =>
        (some (.error ("error sending command " ++ command ++ " to EC2 instance "
                        ++ ec2InstanceId ++ ": " ++ e)),
         tr ++ [.sendCommand ec2InstanceId command])
    | .ok commandId =>
      match GetCommandInvocationDetails o.pollInvocation commandMaxWaitTime with
      | (.error e, tr2) =>
          (some (.error ("error getting command invocation details: " ++ e)),
           tr ++ [.sendCommand ec2InstanceId command] ++ tr2)
      | (.ok d, tr2) =>
          (some (.ok commandId),
           tr ++ [.sendCommand ec2InstanceId command] ++ tr2 ++ execLogs d)

/-- Responses of the EC2 collaborator: the RunInstances answer (the new
instance id), the DescribeInstances state per poll, and the
TerminateInstances answer. -/
structure EC2Responses where
  runInstancesResult : Except String String
  describeState : Nat → Except String String
  terminateResult : Except String Unit

/-- Outcome of a flow that can also end the whole process via
`action.Fatalf` (which exits) or keep polling past the modelled fuel. -/
inductive RunOutcome where
  | ok (instanceId : String)
  | err (msg : String)
  | fatal (msg : String)
  | hang
deriving DecidableEq, Repr

/-- RunInstances plus the running-state wait (part_001 lines 50-60). -/
def runAndWait (ec2 : EC2Responses) (pre : List Event) (fuel : Nat) :
    RunOutcome × List Event :=
  match ec2.runInstancesResult with
  | .error e => (.err ("error starting EC2 instance: " ++ e), pre ++ [.runInstances])
  | .ok instanceId =>
    match WaitForInstanceRunning ec2.describeState instanceId fuel with
    | (none, tr) => (.hang, pre ++ [.runInstances] ++ tr)
    | (some (.error e), tr) =>
        (.err ("error waiting for instance to be running: " ++ e),
         pre ++ [.runInstances] ++ tr)
    | (some (.ok _), tr) => (.ok instanceId, pre ++ [.runInstances] ++ tr)

/-- The instance-profile step followed by RunInstances and the wait
(part_001 lines 42-60). -/
def createAndStartAfterTags (ec2 : EC2Responses) (iam : IAMResponses)
    (iamRoleName : String) (fuel : Nat) : RunOutcome × List Event :=
  if iamRoleName == "" then
    runAndWait ec2 [] fuel
  else
    match GetOrCreateInstanceProfile iam iamRoleName with
    | (.error e, tr) =>
        (.err ("error creating or retrieving instance profile for IAM role name "
                 ++ iamRoleName ++ ": " ++ e), tr)
    | (.ok _, tr) => runAndWait ec2 tr fuel

/-- `CreateAndStartEC2Instance` (part_001 lines 22-61).  `parseTags`
stands for `json.Unmarshal` into `[]ec2Types.TagSpecification`; a parse
failure hits `action.Fatalf`, which exits the process before any IAM or
EC2 call.  The remaining instance parameters only shape the RunInstances
request and are carried for fidelity. -/
def CreateAndStartEC2Instance (ec2 : EC2Responses) (iam : IAMResponses)
    (parseTags : String → Except String (List TagSpec))
    (ec2AmiId subnetId securityGroupId iamRoleName instanceType userData
      tagSpecifications : String) (fuel : Nat) : RunOutcome × List Event :=
  if tagSpecifications == "" then
    createAndStartAfterTags ec2 iam iamRoleName fuel
  else
    match parseTags tagSpecifications with
    | .error e =>
        (.fatal ("Error parsing tag specifications: " ++ e),
         [.fatalLog ("Error parsing tag specifications: " ++ e)])
    | .ok _ => createAndStartAfterTags ec2 iam iamRoleName fuel

/-- `TerminateEC2Instance` (part_001 lines 221-232). -/
def TerminateEC2Instance (ec2 : EC2Responses) (ec2InstanceId : String) :
    Except String Unit × List Event :=
  match ec2.terminateResult with
  | .error e =>
      (.error ("error stopping EC2 instance " ++ ec2InstanceId ++ ": " ++ e),
       [.terminateInstances ec2InstanceId])
  | .ok _ =>
      (.ok (),
       [.terminateInstances ec2InstanceId,
        .info ("Instance " ++ ec2InstanceId ++ " is stopping...")])

/-- Decimal digit value of a character, `none` for a non-digit. -/
def digitVal (c : Char) : Option Nat :=
  if '0' ≤ c ∧ c ≤ '9' then some (c.toNat - '0'.toNat) else none

/-- Value of a non-empty all-digit character run, `none` when some
character is not a decimal digit. -/
def digitsToNat (cs : List Char) : Option Nat :=
  cs.foldl
    (fun acc c =>
      match acc, digitVal c with
      | some a, some d => some (a * 10 + d)
      | _, _ => none)
    (some 0)

/-- Model of Go `strconv.Atoi`: an optional sign followed by at least one
decimal digit, rejected when empty, when any other character appears, or
when the value does not fit a 64-bit signed integer (Go then reports
`ErrRange`, still a non-nil error). -/
def atoi (s : String) : Except String Int :=
  match s.data with
  | [] => .error "strconv.Atoi: parsing: invalid syntax"
  | c :: cs =>
    let signDigits : Bool × List Char :=
      if c = '-' then (true, cs) else if c = '+' then (false, cs) else (false, c :: cs)
    match signDigits.2 with
    | [] => .error "strconv.Atoi: parsing: invalid syntax"
    | ds =>
      match digitsToNat ds with
      | none => .error "strconv.Atoi: parsing: invalid syntax"
      | some n =>
        let v : Int := if signDigits.1 then -(n : Int) else (n : Int)
        if v < -(2 ^ 63) ∨ 2 ^ 63 - 1 < v then
          .error "strconv.Atoi: parsing: value out of range"
        else .ok v

/-- The action inputs read by `getInputs` (part_000 lines 27-46), all raw
strings as returned by `action.GetInput`. -/
structure Inputs where
  mode : String
  ec2AmiId : String
  subnetId : String
  securityGroupId : String
  iamRoleName : String
  ec2InstanceType : String
  userData : String
  tagSpecifications : String
  ec2InstanceId : String
  command : String
  commandMaxWaitSecs : String
deriving DecidableEq, Repr

/-- Outcome of `getInputs` as observed by `main`: a returned error, a
normal return, a process exit through `action.Fatalf` inside the start
branch, or a poll loop still running past the modelled fuel. -/
inductive MainOutcome where
  | ok
  | err (msg : String)
  | fatal (msg : String)
  | hang
deriving DecidableEq, Repr

/-- The mode switch of `getInputs` (part_000 lines 64-99), entered after
input reading, wait-time flooring and config loading. -/
def modeDispatch (inp : Inputs) (ec2 : EC2Responses) (iam : IAMResponses)
    (ssm : SSMOracle) (parseTags : String → Except String (List TagSpec))
    (commandMaxWaitTime : Int) (pre : List Event) (fuel : Nat) :
    MainOutcome × List Event :=
  if inp.mode == "start" then
    if inp.ec2AmiId == "" || inp.subnetId == "" || inp.securityGroupId == "" then
      (.err "Required parameters (ec2AmiId, subnetId, securityGroupId) are missing.", pre)
    else
      let instanceType := if inp.ec2InstanceType == "" then "t2.micro" else inp.ec2InstanceType
      match CreateAndStartEC2Instance ec2 iam parseTags inp.ec2AmiId inp.subnetId
          inp.securityGroupId inp.iamRoleName instanceType inp.userData
          inp.tagSpecifications fuel with
      | (.fatal m, tr) => (.fatal m, pre ++ tr)
      | (.hang, tr) => (.hang, pre ++ tr)
      | (.err e, tr) =>
          (.fatal ("Error occurred: " ++ e), pre ++ tr ++ [.fatalLog ("Error occurred: " ++ e)])
      | (.ok instanceId, tr) =>
          (.ok, pre ++ tr
            ++ [.info ("Started EC2 instance with ID: " ++ instanceId),
                .setOutput "ec2-instance-id" instanceId])
  else if inp.mode == "command" then
    if inp.ec2InstanceId == "" || inp.command == "" then
      (.err "Required parameters (ec2InstanceId, command) are missing.", pre)
    else
      match ExecuteCommandOnEC2Instance ssm inp.ec2InstanceId inp.command commandMaxWaitTime with
      | (none, tr) => (.hang, pre ++ tr)
      | (some (.error e), tr) => (.err e, pre ++ tr)
      | (some (.ok commandId), tr) =>
          (.ok, pre ++ tr
            ++ [.info ("Command " ++ inp.command ++ " sent to instance " ++ inp.ec2InstanceId
                  ++ ". Command ID: " ++ commandId ++ ". Command wait time: "
                  ++ toString commandMaxWaitTime ++ " secs"),
                .setOutput "command-id" commandId])
  else if inp.mode == "stop" then
    if inp.ec2InstanceId == "" then
      (.err "Required parameter (ec2InstanceId) is missing.", pre)
    else
      match TerminateEC2Instance ec2 inp.ec2InstanceId with
      | (.error e, tr) => (.err e, pre ++ tr)
      | (.ok _, tr) => (.ok, pre ++ tr)
  else
    (.err ("Unsupported mode: " ++ inp.mode
            ++ ". Supported modes are start, command, and stop."), pre)

/-- `getInputs` (part_000 lines 25-101): checks that a mode was given,
parses `command-max-wait-secs` (a parse failure is returned before any
mode branch runs), floors the wait time at 6 with a warning, loads the
AWS config, and dispatches on the mode. -/
def getInputs (inp : Inputs) (loadConfig : Except String Unit) (ec2 : EC2Responses)
    (iam : IAMResponses) (ssm : SSMOracle)
    (parseTags : String → Except String (List TagSpec)) (fuel : Nat) :
    MainOutcome × List Event :=
  if inp.mode == "" then
    (.err "Required input mode is missing.", [])
  else
    match atoi inp.commandMaxWaitSecs with
    | .error e => (.err e, [])
    | .ok n =>
      let floored : Int × List Event :=
        if n ≤ 5 then (6, [.warning "command-max-wait-secs raised to minimum 6 seconds"])
        else (n, [])
      match loadConfig with
      | .error e => (.err e, floored.2)
      | .ok _ =>
          modeDispatch inp ec2 iam ssm parseTags floored.1 floored.2 fuel

/-- The state a describe response reported, or the empty string on an
API error (then `waitLoop` has already returned and never reads it). -/
def obsState (describe : Nat → Except String String) (j : Nat) : String :=
  match describe j with
  | .ok s => s
  | .error _ => ""

/-- The trace `waitLoop` emits for `k` consecutive non-running polls
starting at poll index `k0`: each poll is a describe call, a state log
line, and a 5-second sleep. -/
def segTrace (describe : Nat → Except String String) : Nat → Nat → List Event
  | _, 0 => []
  | k0, k+1 =>
      .describeInstances k0
        :: .info ("Instance state: " ++ obsState describe k0)
        :: .sleep 5
        :: segTrace describe (k0+1) k

/-- The trace `agentLoop` emits for `k` consecutive not-online polls
starting at poll index `k0`: each poll is a describe call, a waiting log
line, and an `interval`-second sleep. -/
def regSegTrace (ec2InstanceId : String) (interval : Nat) : Nat → Nat → List Event
  | _, 0 => []
  | k0, k+1 =>
      .describeInstanceInformation k0
        :: .info ("SSM agent is not registered or not online for instance "
                    ++ ec2InstanceId ++ ". Waiting...")
        :: .sleep interval
        :: regSegTrace ec2InstanceId interval (k0+1) k

/-- Recognizes sleep events. -/
def isSleepEvent : Event → Bool
  | .sleep _ => true
  | _ => false

/-- Recognizes EC2 DescribeInstances events. -/
def isDescribeEvent : Event → Bool
  | .describeInstances _ => true
  | _ => false

/-- Recognizes SSM DescribeInstanceInformation events. -/
def isRegPollEvent : Event → Bool
  | .describeInstanceInformation _ => true
  | _ => false

/-- Recognizes SSM SendCommand events. -/
def isSendCommandEvent : Event → Bool
  | .sendCommand _ _ => true
  | _ => false

/-- Recognizes IAM CreateInstanceProfile and AddRoleToInstanceProfile
events. -/
def isCreateOrAttachEvent : Event → Bool
  | .createInstanceProfile _ => true
  | .addRoleToInstanceProfile _ _ => true
  | _ => false

/-- A 1000-character standard-error text. -/
def bigErr : String := String.mk (List.replicate 1000 'e')

/-- A 1000-character standard-output text. -/
def bigOut : String := String.mk (List.replicate 1000 'o')

/-! ## Lemmas about the running-state wait loop -/

theorem waitLoop_pending (instanceId : String) :
    ∀ fuel k, (waitLoop (fun _ => Except.ok "pending") instanceId k fuel).1 = none := by
  intro fuel
  induction fuel with
  | zero => intro k; rfl
  | succ n ih =>
    intro k
    simpa [waitLoop] using ih (k + 1)

theorem waitLoop_stops (describe : Nat → Except String String) (instanceId : String) :
    ∀ k k0 fuel, k < fuel →
    (∀ j, j < k → ∃ s, describe (k0 + j) = .ok s ∧ s ≠ "running") →
    describe (k0 + k) = .ok "running" →
    waitLoop describe instanceId k0 fuel
      = (some (.ok ()), segTrace describe k0 k
          ++ [.describeInstances (k0 + k), .info "Instance state: running",
              .info ("Instance " ++ instanceId ++ " is now running.")]) := by
  intro k
  induction k with
  | zero =>
    intro k0 fuel hfuel hbefore hk
    match fuel, hfuel with
    | fuel + 1, _ =>
      simp only [Nat.add_zero] at hk
      simp [waitLoop, hk, segTrace]
  | succ k ih =>
    intro k0 fuel hfuel hbefore hk
    match fuel, hfuel with
    | fuel + 1, hfuel =>
      obtain ⟨s, hs, hsne⟩ := hbefore 0 (Nat.succ_pos k)
      simp only [Nat.add_zero] at hs
      have hrec := ih (k0 + 1) fuel (by omega)
        (fun j hj => by
          have := hbefore (j + 1) (by omega)
          simpa [Nat.add_assoc, Nat.add_comm 1 j] using this)
        (by have : k0 + 1 + k = k0 + (k + 1) := by omega
            rw [this]; exact hk)
      simp only [waitLoop, hs, if_neg hsne, hrec, segTrace, obsState]
      have : k0 + 1 + k = k0 + (k + 1) := by omega
      simp [this]

theorem segTrace_countP_sleep (describe : Nat → Except String String) :
    ∀ k k0, (segTrace describe k0 k).countP isSleepEvent = k := by
  intro k
  induction k with
  | zero => intro k0; simp [segTrace]
  | succ k ih =>
    intro k0
    simp [segTrace, List.countP_cons, isSleepEvent, ih (k0 + 1)]

theorem segTrace_countP_describe (describe : Nat → Except String String) :
    ∀ k k0, (segTrace describe k0 k).countP isDescribeEvent = k := by
  intro k
  induction k with
  | zero => intro k0; simp [segTrace]
  | succ k ih =>
    intro k0
    simp [segTrace, List.countP_cons, isDescribeEvent, ih (k0 + 1)]

/-- Claim C1: the spec says `WaitRunning` fails with a Timeout error once
the deadline passes while the instance is still not running.  The code
has no deadline at all: against an instance that stays pending forever it
keeps polling and never produces any result, Timeout error included —
for every modelled fuel the loop is still running. -/
theorem claim1_waitRunning_never_times_out :
    ∀ fuel, (WaitForInstanceRunning (fun _ => Except.ok "pending") "i-0" fuel).1 = none := by
  intro fuel
  exact waitLoop_pending "i-0" fuel 0

/-- Claim C7: for every sequence of described states, `WaitRunning`
sleeps the fixed 5 seconds exactly once after each poll that observed a
non-running state, and returns successfully the moment a described state
is running, with no further describe call and no further sleep: the
full trace is `k` poll/log/sleep segments followed by the final describe
and the two success log lines, with exactly `k+1` describes and `k`
sleeps. -/
theorem claim7_waitRunning_stops_at_running (describe : Nat → Except String String)
    (instanceId : String) (k fuel : Nat) (hfuel : k < fuel)
    (hbefore : ∀ j, j < k → ∃ s, describe j = .ok s ∧ s ≠ "running")
    (hk : describe k = .ok "running") :
    WaitForInstanceRunning describe instanceId fuel
      = (some (.ok ()), segTrace describe 0 k
          ++ [.describeInstances k, .info "Instance state: running",
              .info ("Instance " ++ instanceId ++ " is now running.")])
    ∧ (WaitForInstanceRunning describe instanceId fuel).2.countP isDescribeEvent = k + 1
    ∧ (WaitForInstanceRunning describe instanceId fuel).2.countP isSleepEvent = k := by
  have h := waitLoop_stops describe instanceId k 0 fuel hfuel
    (fun j hj => by simpa using hbefore j hj) (by simpa using hk)
  refine ⟨by simpa [WaitForInstanceRunning] using h, ?_, ?_⟩
  · rw [WaitForInstanceRunning, h]
    simp [List.countP_append, segTrace_countP_describe, List.countP_cons, isDescribeEvent]
  · rw [WaitForInstanceRunning, h]
    simp [List.countP_append, segTrace_countP_sleep, List.countP_cons, isSleepEvent]

/-- Witness for C7 at a concrete input: two pending polls then running. -/
theorem claim7_witness :
    WaitForInstanceRunning (fun j => if j < 2 then .ok "pending" else .ok "running") "i-1" 3
      = (some (.ok ()), segTrace (fun j => if j < 2 then .ok "pending" else .ok "running") 0 2
          ++ [.describeInstances 2, .info "Instance state: running",
              .info ("Instance i-1 is now running.")]) := by
  exact (claim7_waitRunning_stops_at_running
    (fun j => if j < 2 then .ok "pending" else .ok "running") "i-1" 2 3
    (by decide)
    (fun j hj => ⟨"pending", by interval_cases j <;> simp, by decide⟩)
    (by simp)).1

/-! ## Lemmas about the agent-registration poll loop -/

theorem agentLoop_timeout (describe : Nat → Except String (List InstanceInfo))
    (ec2InstanceId : String) (timeout interval : Nat) (hint : 1 ≤ interval) :
    ∀ fuel now k0, timeout - now < fuel →
    (∀ j, now + j * interval < timeout →
      ∃ infos, describe (k0 + j) = .ok infos ∧ infos.any (matchesOnline ec2InstanceId) = false) →
    (agentLoop describe ec2InstanceId timeout interval k0 now fuel).1 = some (.ok false) := by
  intro fuel
  induction fuel with
  | zero => intro now k0 hfuel; omega
  | succ n ih =>
    intro now k0 hfuel hok
    by_cases hnow : now < timeout
    · obtain ⟨infos, hd, hany⟩ := hok 0 (by simpa using hnow)
      simp only [Nat.add_zero] at hd
      have hrec := ih (now + interval) (k0 + 1) (by omega)
        (fun j hj => by
          have := hok (j + 1) (by
            have : now + (j + 1) * interval = now + interval + j * interval := by ring
            omega)
          simpa [Nat.add_assoc, Nat.add_comm 1 j] using this)
      simp [agentLoop, hnow, hd, hany, hrec]
    · simp [agentLoop, hnow]

theorem agentLoop_online (describe : Nat → Except String (List InstanceInfo))
    (ec2InstanceId : String) (timeout interval : Nat) :
    ∀ k k0 now fuel, k < fuel → now + k * interval < timeout →
    (∀ j, j < k →
      ∃ infos, describe (k0 + j) = .ok infos ∧ infos.any (matchesOnline ec2InstanceId) = false) →
    (∃ infos, describe (k0 + k) = .ok infos ∧ infos.any (matchesOnline ec2InstanceId) = true) →
    agentLoop describe ec2InstanceId timeout interval k0 now fuel
      = (some (.ok true), regSegTrace ec2InstanceId interval k0 k
          ++ [.describeInstanceInformation (k0 + k),
              .info ("SSM agent is registered and online for instance " ++ ec2InstanceId)]) := by
  intro k
  induction k with
  | zero =>
    intro k0 now fuel hfuel hnow hbefore hk
    obtain ⟨infos, hd, hany⟩ := hk
    simp only [Nat.zero_mul, Nat.add_zero] at hd hnow ⊢
    match fuel, hfuel with
    | fuel + 1, _ => simp [agentLoop, hnow, hd, hany, regSegTrace]
  | succ k ih =>
    intro k0 now fuel hfuel hnow hbefore hk
    match fuel, hfuel with
    | fuel + 1, hfuel =>
      obtain ⟨infos, hd, hany⟩ := hbefore 0 (Nat.succ_pos k)
      simp only [Nat.add_zero] at hd
      have hnow0 : now < timeout := by
        have : now ≤ now + (k + 1) * interval := Nat.le_add_right _ _
        omega
      have harith : now + interval + k * interval = now + (k + 1) * interval := by ring
      have hrec := ih (k0 + 1) (now + interval) fuel (by omega) (by omega)
        (fun j hj => by
          have := hbefore (j + 1) (by omega)
          simpa [Nat.add_assoc, Nat.add_comm 1 j] using this)
        (by have : k0 + 1 + k = k0 + (k + 1) := by omega
            rw [this]; exact hk)
      simp only [agentLoop, hnow0, if_pos, hd, hany, hrec, regSegTrace]
      have : k0 + 1 + k = k0 + (k + 1) := by omega
      simp [this]

theorem agentLoop_error_source (describe : Nat → Except String (List InstanceInfo))
    (ec2InstanceId : String) (timeout interval : Nat) :
    ∀ fuel k0 now e,
    (agentLoop describe ec2InstanceId timeout interval k0 now fuel).1 = some (.error e) →
    ∃ j, now + j * interval < timeout ∧ describe (k0 + j) = .error e := by
  intro fuel
  induction fuel with
  | zero => intro k0 now e h; simp [agentLoop] at h
  | succ n ih =>
    intro k0 now e h
    by_cases hnow : now < timeout
    · rcases hd : describe k0 with e' | infos
      · simp [agentLoop, hnow, hd] at h
        exact ⟨0, by simpa using hnow, by simpa [h] using hd⟩
      · by_cases hany : infos.any (matchesOnline ec2InstanceId) = true
        · simp [agentLoop, hnow, hd, hany] at h
        · simp only [agentLoop, if_pos hnow, hd, Bool.not_eq_true] at h
          rw [if_neg (by simp [hany])] at h
          obtain ⟨j, hj, hdj⟩ := ih (k0 + 1) (now + interval) e h
          refine ⟨j + 1, by
            have : now + (j + 1) * interval = now + interval + j * interval := by ring
            omega, ?_⟩
          have : k0 + (j + 1) = k0 + 1 + j := by omega
          rw [this]; exact hdj
    · simp [agentLoop, hnow] at h

theorem agentLoop_events (describe : Nat → Except String (List InstanceInfo))
    (ec2InstanceId : String) (timeout interval : Nat) :
    ∀ fuel k0 now e,
    e ∈ (agentLoop describe ec2InstanceId timeout interval k0 now fuel).2 →
    isSendCommandEvent e = false := by
  intro fuel
  induction fuel with
  | zero => intro k0 now e h; simp [agentLoop] at h
  | succ n ih =>
    intro k0 now e h
    by_cases hnow : now < timeout
    · rcases hd : describe k0 with e' | infos
      · simp [agentLoop, hnow, hd] at h
        simp [h, isSendCommandEvent]
      · by_cases hany : infos.any (matchesOnline ec2InstanceId) = true
        · simp [agentLoop, hnow, hd, hany] at h
          rcases h with h | h <;> simp [h, isSendCommandEvent]
        · simp only [agentLoop, if_pos hnow, hd, Bool.not_eq_true] at h
          rw [if_neg (by simp [hany])] at h
          simp only [List.mem_cons] at h
          rcases h with h | h | h | h
          · simp [h, isSendCommandEvent]
          · simp [h, isSendCommandEvent]
          · simp [h, isSendCommandEvent]
          · exact ih (k0 + 1) (now + interval) e h
    · simp [agentLoop, hnow] at h
      simp [h, isSendCommandEvent]

/-- Claim C4: `IsAgentRegistered` (a) returns false with no error when
every poll inside the timeout window reports the instance not online,
(b) returns true as soon as a poll reports a matching online entry — the
trace then is the not-online segments followed by that single final
describe and the success log — and (c) an error result can only
originate from a failed describe call inside the window. -/
theorem claim4_isAgentRegistered (describe : Nat → Except String (List InstanceInfo))
    (ec2InstanceId : String) (timeout interval : Nat) (hint : 1 ≤ interval) :
    ((∀ k, k * interval < timeout →
        ∃ infos, describe k = .ok infos ∧ infos.any (matchesOnline ec2InstanceId) = false) →
      (IsSSMAgentRegistered describe ec2InstanceId timeout interval).1 = some (.ok false))
    ∧ (∀ k, k * interval < timeout →
        (∀ j, j < k →
          ∃ infos, describe j = .ok infos ∧ infos.any (matchesOnline ec2InstanceId) = false) →
        (∃ infos, describe k = .ok infos ∧ infos.any (matchesOnline ec2InstanceId) = true) →
        IsSSMAgentRegistered describe ec2InstanceId timeout interval
          = (some (.ok true), regSegTrace ec2InstanceId interval 0 k
              ++ [.describeInstanceInformation k,
                  .info ("SSM agent is registered and online for instance " ++ ec2InstanceId)]))
    ∧ (∀ e, (IsSSMAgentRegistered describe ec2InstanceId timeout interval).1 = some (.error e) →
        ∃ k, k * interval < timeout ∧ describe k = .error e) := by
  refine ⟨?_, ?_, ?_⟩
  · intro hok
    exact agentLoop_timeout describe ec2InstanceId timeout interval hint (timeout + 1) 0 0
      (by omega) (fun j hj => by simpa using hok j (by simpa using hj))
  · intro k hk hbefore honline
    have h := agentLoop_online describe ec2InstanceId timeout interval k 0 0 (timeout + 1)
      (by nlinarith) (by simpa using hk)
      (fun j hj => by simpa using hbefore j hj) (by simpa using honline)
    simpa [IsSSMAgentRegistered] using h
  · intro e he
    obtain ⟨k, hk, hdk⟩ := agentLoop_error_source describe ec2InstanceId timeout interval
      (timeout + 1) 0 0 e he
    exact ⟨k, by simpa using hk, by simpa using hdk⟩

/-- Witness for C4 at a concrete input: an always-empty describe
response with timeout 10 and interval 5 yields false with no error. -/
theorem claim4_witness :
    (1 ≤ 5)
    ∧ (IsSSMAgentRegistered (fun _ => Except.ok []) "i-1" 10 5).1 = some (.ok false) := by
  refine ⟨by decide, ?_⟩
  exact (claim4_isAgentRegistered (fun _ => Except.ok []) "i-1" 10 5 (by decide)).1
    (fun k hk => ⟨[], rfl, rfl⟩)

/-! ## Claims about ExecuteCommandOnEC2Instance -/

/-- Claim C3: when no poll of the 60-second registration window (polls
every 5 seconds) observes the agent online, `Execute` fails with the
agent-not-registered error and its trace contains no SendCommand call. -/
theorem claim3_execute_agent_not_registered (o : SSMOracle)
    (ec2InstanceId command : String) (w : Int)
    (hreg : ∀ k, k * 5 < 60 →
      ∃ infos, o.describeInfo k = .ok infos
        ∧ infos.any (matchesOnline ec2InstanceId) = false) :
    (ExecuteCommandOnEC2Instance o ec2InstanceId command w).1
      = some (.error ("SSM agent is not registered or online for instance " ++ ec2InstanceId))
    ∧ ∀ e ∈ (ExecuteCommandOnEC2Instance o ec2InstanceId command w).2,
        isSendCommandEvent e = false := by
  have h1 : (IsSSMAgentRegistered o.describeInfo ec2InstanceId 60 5).1 = some (.ok false) :=
    agentLoop_timeout o.describeInfo ec2InstanceId 60 5 (by decide) 61 0 0 (by decide)
      (fun j hj => by simpa using hreg j (by simpa using hj))
  rcases hP : IsSSMAgentRegistered o.describeInfo ec2InstanceId 60 5 with ⟨res, tr⟩
  rw [hP] at h1
  simp only at h1
  subst h1
  constructor
  · simp [ExecuteCommandOnEC2Instance, hP]
  · intro e he
    simp only [ExecuteCommandOnEC2Instance, hP] at he
    have : e ∈ (agentLoop o.describeInfo ec2InstanceId 60 5 0 0 61).2 := by
      have : tr = (IsSSMAgentRegistered o.describeInfo ec2InstanceId 60 5).2 := by
        rw [hP]
      rw [this] at he
      simpa [IsSSMAgentRegistered] using he
    exact agentLoop_events o.describeInfo ec2InstanceId 60 5 61 0 0 e this

/-- Witness for C3 at a concrete input: every registration poll answers
with an empty instance list, so no command is ever sent. -/
theorem claim3_witness :
    (ExecuteCommandOnEC2Instance
        ⟨fun _ => Except.ok [], Except.ok "cid", fun _ => ⟨0, "Success", "", ""⟩⟩
        "i-1" "cmd" 60).1
      = some (.error ("SSM agent is not registered or online for instance " ++ "i-1")) := by
  exact (claim3_execute_agent_not_registered
    ⟨fun _ => Except.ok [], Except.ok "cid", fun _ => ⟨0, "Success", "", ""⟩⟩
    "i-1" "cmd" 60 (fun k hk => ⟨[], rfl, rfl⟩)).1

/-- Claim C2: whenever the agent-registration check succeeds, the
dispatch succeeds and the waiter resolves the invocation to a terminal
status within the wait, `Execute` returns the command id with no error —
for every invocation value, including a failed status or a non-zero
response code — and the status and response code are surfaced in the
logged invocation details rather than raised. -/
theorem claim2_execute_reports_command_failure (o : SSMOracle)
    (ec2InstanceId command : String) (w : Int) (cid : String) (d : InvocationDetails)
    (hreg : (IsSSMAgentRegistered o.describeInfo ec2InstanceId 60 5).1 = some (.ok true))
    (hsend : o.sendCommandResult = .ok cid)
    (hdet : (GetCommandInvocationDetails o.pollInvocation w).1 = .ok d) :
    (ExecuteCommandOnEC2Instance o ec2InstanceId command w).1 = some (.ok cid)
    ∧ Event.info ("Status: " ++ d.status)
        ∈ (ExecuteCommandOnEC2Instance o ec2InstanceId command w).2
    ∧ Event.info ("ResponseCode: " ++ toString d.responseCode)
        ∈ (ExecuteCommandOnEC2Instance o ec2InstanceId command w).2 := by
  rcases hP : IsSSMAgentRegistered o.describeInfo ec2InstanceId 60 5 with ⟨res, tr⟩
  rw [hP] at hreg
  simp only at hreg
  subst hreg
  rcases hD : GetCommandInvocationDetails o.pollInvocation w with ⟨dres, tr2⟩
  rw [hD] at hdet
  simp only at hdet
  subst hdet
  refine ⟨?_, ?_, ?_⟩ <;>
    simp [ExecuteCommandOnEC2Instance, hP, hsend, hD, execLogs]

/-- Witness for C2 at a concrete input: the remote command resolves with
status Failed and response code 1, yet Execute returns the command id
without error. -/
theorem claim2_witness :
    (IsSSMAgentRegistered (fun _ => Except.ok [⟨"i-1", "Online"⟩]) "i-1" 60 5).1
        = some (.ok true)
    ∧ (ExecuteCommandOnEC2Instance
          ⟨fun _ => Except.ok [⟨"i-1", "Online"⟩], Except.ok "cid",
            fun _ => ⟨1, "Failed", "out", "boom"⟩⟩
          "i-1" "cmd" 60).1 = some (.ok "cid") := by
  refine ⟨by rfl, ?_⟩
  exact (claim2_execute_reports_command_failure
    ⟨fun _ => Except.ok [⟨"i-1", "Online"⟩], Except.ok "cid",
      fun _ => ⟨1, "Failed", "out", "boom"⟩⟩
    "i-1" "cmd" 60 "cid" ⟨1, "Failed", "out", "boom"⟩ (by rfl) rfl (by rfl)).1

/-! ## Claim C9: log truncation of command output -/

theorem commandWaiter_value (poll : Nat → InvocationDetails) :
    ∀ fuel k d, (commandWaiter poll k fuel).1 = .ok d → ∃ j, d = poll j := by
  intro fuel
  induction fuel with
  | zero => intro k d h; simp [commandWaiter] at h
  | succ n ih =>
    intro k d h
    by_cases ht : isTerminalStatus (poll k).status = true
    · simp [commandWaiter, ht] at h
      exact ⟨k, h.symm⟩
    · simp only [commandWaiter] at h
      rw [if_neg ht] at h
      exact ih (k + 1) d h

theorem stdOutputLog_ne_responseCode (s t : String) :
    ("StdOutput: " ++ s) ≠ ("ResponseCode: " ++ t) := by
  intro h
  have h2 := congrArg String.data h
  rw [String.data_append, String.data_append,
      show ("StdOutput: ").data = ['S','t','d','O','u','t','p','u','t',':',' '] from rfl,
      show ("ResponseCode: ").data = ['R','e','s','p','o','n','s','e','C','o','d','e',':',' ']
        from rfl] at h2
  simp at h2

theorem stdOutputLog_ne_status (s t : String) :
    ("StdOutput: " ++ s) ≠ ("Status: " ++ t) := by
  intro h
  have h2 := congrArg String.data h
  rw [String.data_append, String.data_append,
      show ("StdOutput: ").data = ['S','t','d','O','u','t','p','u','t',':',' '] from rfl,
      show ("Status: ").data = ['S','t','a','t','u','s',':',' '] from rfl] at h2
  simp at h2

theorem stdOutputLog_ne_stdError (s t : String) :
    ("StdOutput: " ++ s) ≠ ("StdError: " ++ t) := by
  intro h
  have h2 := congrArg String.data h
  rw [String.data_append, String.data_append,
      show ("StdOutput: ").data = ['S','t','d','O','u','t','p','u','t',':',' '] from rfl,
      show ("StdError: ").data = ['S','t','d','E','r','r','o','r',':',' '] from rfl] at h2
  simp at h2

theorem stdOutputLog_ne_placeholder (s : String) :
    ("StdOutput: " ++ s) ≠ "(enable debug to see full output)" := by
  intro h
  have h2 := congrArg String.data h
  rw [String.data_append,
      show ("StdOutput: ").data = ['S','t','d','O','u','t','p','u','t',':',' '] from rfl,
      show ("(enable debug to see full output)").data
        = ['(','e','n','a','b','l','e',' ','d','e','b','u','g',' ','t','o',' ',
           's','e','e',' ','f','u','l','l',' ','o','u','t','p','u','t',')'] from rfl] at h2
  simp at h2

/-- Counterexample to C9 as stated: the claim says any output of 1000 or
more characters is elided from the logs, for standard error as well as
standard output.  With a resolved invocation whose standard error is
1000 characters long, the full standard-error text still appears in the
logged trace. -/
theorem claim9_counterexample :
    1000 ≤ bigErr.length
    ∧ Event.info ("StdError: " ++ bigErr)
        ∈ (ExecuteCommandOnEC2Instance
            ⟨fun _ => Except.ok [⟨"i-9", "Online"⟩], Except.ok "cid",
              fun _ => ⟨0, "Success", "short", bigErr⟩⟩
            "i-9" "cmd" 60).2 := by
  constructor
  · have h : bigErr.length = 1000 := by
      rw [bigErr, String.length_mk, List.length_replicate]
    omega
  · have : (ExecuteCommandOnEC2Instance
        ⟨fun _ => Except.ok [⟨"i-9", "Online"⟩], Except.ok "cid",
          fun _ => ⟨0, "Success", "short", bigErr⟩⟩
        "i-9" "cmd" 60).2
      = [.describeInstanceInformation 0,
         .info ("SSM agent is registered and online for instance i-9"),
         .sendCommand "i-9" "cmd", .getCommandInvocation 0,
         .group "Command invocation details",
         .info ("ResponseCode: 0"), .info ("Status: Success"),
         .info ("StdError: " ++ bigErr), .info ("StdOutput: short"), .endGroup] := by
      rfl
    rw [this]
    simp

/-- Claim C9 amended: only the standard-output text is size-capped for
display — stdout of fewer than 1000 characters is logged in full, stdout
of 1000 or more characters is replaced in the invocation-details log
group by a placeholder and never logged there — while standard error is
always logged in full whatever its size, and the surfaced invocation
value is a polled value, untruncated. -/
theorem claim9_amended_stdout_only_truncation (o : SSMOracle)
    (ec2InstanceId command : String) (w : Int) (cid : String) (d : InvocationDetails)
    (hreg : (IsSSMAgentRegistered o.describeInfo ec2InstanceId 60 5).1 = some (.ok true))
    (hsend : o.sendCommandResult = .ok cid)
    (hdet : (GetCommandInvocationDetails o.pollInvocation w).1 = .ok d) :
    Event.info ("StdError: " ++ d.standardErrorContent)
        ∈ (ExecuteCommandOnEC2Instance o ec2InstanceId command w).2
    ∧ (d.standardOutputContent.length < 1000 →
        Event.info ("StdOutput: " ++ d.standardOutputContent)
          ∈ (ExecuteCommandOnEC2Instance o ec2InstanceId command w).2)
    ∧ (1000 ≤ d.standardOutputContent.length →
        Event.info "(enable debug to see full output)"
            ∈ (ExecuteCommandOnEC2Instance o ec2InstanceId command w).2
        ∧ ∀ s, Event.info ("StdOutput: " ++ s) ∉ execLogs d)
    ∧ ∃ k, d = o.pollInvocation k := by
  rcases hP : IsSSMAgentRegistered o.describeInfo ec2InstanceId 60 5 with ⟨res, tr⟩
  rw [hP] at hreg
  simp only at hreg
  subst hreg
  rcases hD : GetCommandInvocationDetails o.pollInvocation w with ⟨dres, tr2⟩
  have hdet2 : dres = .ok d := by rw [hD] at hdet; simpa using hdet
  subst hdet2
  refine ⟨?_, ?_, ?_, ?_⟩
  · simp [ExecuteCommandOnEC2Instance, hP, hsend, hD, execLogs]
  · intro hlt
    simp [ExecuteCommandOnEC2Instance, hP, hsend, hD, execLogs, hlt]
  · intro hge
    constructor
    · simp [ExecuteCommandOnEC2Instance, hP, hsend, hD, execLogs, Nat.not_lt.2 hge]
    · intro s hs
      simp only [execLogs, if_neg (Nat.not_lt.2 hge), List.append_assoc, List.cons_append,
        List.nil_append, List.mem_cons, List.mem_singleton] at hs
      rcases hs with h | h | h | h | h | h
      · exact absurd h (by simp)
      · exact stdOutputLog_ne_responseCode s _ (by simpa using h)
      · exact stdOutputLog_ne_status s _ (by simpa using h)
      · exact stdOutputLog_ne_stdError s _ (by simpa using h)
      · exact stdOutputLog_ne_placeholder s (by simpa using h)
      · exact absurd h (by simp)
  · exact commandWaiter_value o.pollInvocation w.toNat 0 d (by
      have : (commandWaiter o.pollInvocation 0 w.toNat).1 = .ok d := by
        rw [show commandWaiter o.pollInvocation 0 w.toNat
              = GetCommandInvocationDetails o.pollInvocation w from rfl, hD]
      exact this)

/-- Witness for the amended C9 at a concrete input: a 1000-character
stdout is replaced by the placeholder in the logged details. -/
theorem claim9_amended_witness :
    Event.info "(enable debug to see full output)"
      ∈ (ExecuteCommandOnEC2Instance
          ⟨fun _ => Except.ok [⟨"i-9", "Online"⟩], Except.ok "cid",
            fun _ => ⟨0, "Success", bigOut, "err"⟩⟩
          "i-9" "cmd" 60).2 := by
  exact ((claim9_amended_stdout_only_truncation
    ⟨fun _ => Except.ok [⟨"i-9", "Online"⟩], Except.ok "cid",
      fun _ => ⟨0, "Success", bigOut, "err"⟩⟩
    "i-9" "cmd" 60 "cid" ⟨0, "Success", bigOut, "err"⟩
    (by rfl) rfl (by rfl)).2.2.1 (by
      show (1000 : Nat) ≤ bigOut.length
      have h : bigOut.length = 1000 := by
        rw [bigOut, String.length_mk, List.length_replicate]
      omega)).1

/-! ## Claim C6: get-or-create of the instance profile -/

theorem findProfileWithRole_after_create (iamRoleName : String) :
    ∀ s : List InstanceProfile, findProfileWithRole s iamRoleName = none →
    ∃ p, findProfileWithRole
          ((s ++ [InstanceProfile.mk iamRoleName []]).map (attachRoleFn iamRoleName iamRoleName))
          iamRoleName
        = some p
      ∧ p.instanceProfileName = iamRoleName := by
  intro s
  induction s with
  | nil =>
    intro _
    refine ⟨InstanceProfile.mk iamRoleName [iamRoleName], ?_, rfl⟩
    simp [findProfileWithRole, attachRoleFn, List.find?]
  | cons q s ih =>
    intro h
    rw [findProfileWithRole, List.find?_cons] at h
    rcases hpq : q.roles.any (fun r => r == iamRoleName) with _ | _
    · rw [hpq] at h
      have h2 : findProfileWithRole s iamRoleName = none := h
      by_cases hname : q.instanceProfileName = iamRoleName
      · refine ⟨InstanceProfile.mk q.instanceProfileName (q.roles ++ [iamRoleName]), ?_, hname⟩
        rw [findProfileWithRole]
        simp only [List.cons_append, List.map_cons, List.find?_cons]
        have hfn : attachRoleFn iamRoleName iamRoleName q
            = InstanceProfile.mk q.instanceProfileName (q.roles ++ [iamRoleName]) := by
          simp [attachRoleFn, hname]
        rw [hfn]
        simp
      · obtain ⟨p, hp, hpname⟩ := ih h2
        refine ⟨p, ?_, hpname⟩
        rw [findProfileWithRole]
        simp only [List.cons_append, List.map_cons, List.find?_cons]
        have hfn : attachRoleFn iamRoleName iamRoleName q = q := by
          simp [attachRoleFn, hname]
        rw [hfn, hpq]
        exact hp
    · rw [hpq] at h
      simp at h

/-- Claim C6: `GetOrCreate` (a) returns the name of the first listed
profile holding a role of exactly the wanted name and then makes only
the list call, (b) otherwise creates a profile named exactly the role
name, attaches the role of the same name and returns the role name, and
(c) run twice against an honest collaborator that reports the profile as
existing after the first call, returns the same name both times and
issues no create or attach call the second time. -/
theorem claim6_getOrCreateInstanceProfile (iamRoleName : String) :
    (∀ (iam : IAMResponses) (profiles : List InstanceProfile) (p : InstanceProfile),
      iam.listProfiles = .ok profiles →
      findProfileWithRole profiles iamRoleName = some p →
      GetOrCreateInstanceProfile iam iamRoleName
        = (.ok p.instanceProfileName,
           [.listInstanceProfiles,
            .info ("Instance profile for IAM role " ++ iamRoleName ++ " already exists.")]))
    ∧ (∀ (iam : IAMResponses) (profiles : List InstanceProfile),
      iam.listProfiles = .ok profiles →
      findProfileWithRole profiles iamRoleName = none →
      iam.createProfile iamRoleName = .ok () →
      iam.attachRole iamRoleName iamRoleName = .ok () →
      GetOrCreateInstanceProfile iam iamRoleName
        = (.ok iamRoleName,
           [.listInstanceProfiles, .createInstanceProfile iamRoleName,
            .info ("Created instance profile " ++ iamRoleName),
            .addRoleToInstanceProfile iamRoleName iamRoleName,
            .info ("Attached role " ++ iamRoleName ++ " to instance profile " ++ iamRoleName)]))
    ∧ (∀ s : List InstanceProfile, findProfileWithRole s iamRoleName = none →
      (GetOrCreateInstanceProfile (honestIAM s) iamRoleName).1 = .ok iamRoleName
      ∧ (GetOrCreateInstanceProfile (honestIAM (applyIAMCalls s
            (GetOrCreateInstanceProfile (honestIAM s) iamRoleName).2)) iamRoleName).1
          = .ok iamRoleName
      ∧ ∀ e ∈ (GetOrCreateInstanceProfile (honestIAM (applyIAMCalls s
            (GetOrCreateInstanceProfile (honestIAM s) iamRoleName).2)) iamRoleName).2,
          isCreateOrAttachEvent e = false) := by
  refine ⟨?_, ?_, ?_⟩
  · intro iam profiles p hlist hfind
    simp [GetOrCreateInstanceProfile, hlist, hfind]
  · intro iam profiles hlist hfind hcreate hattach
    simp [GetOrCreateInstanceProfile, hlist, hfind, hcreate, hattach]
  · intro s hfind
    have h1 : GetOrCreateInstanceProfile (honestIAM s) iamRoleName
        = (.ok iamRoleName,
           [.listInstanceProfiles, .createInstanceProfile iamRoleName,
            .info ("Created instance profile " ++ iamRoleName),
            .addRoleToInstanceProfile iamRoleName iamRoleName,
            .info ("Attached role " ++ iamRoleName ++ " to instance profile " ++ iamRoleName)]) := by
      simp [GetOrCreateInstanceProfile, honestIAM, hfind]
    have hs' : applyIAMCalls s (GetOrCreateInstanceProfile (honestIAM s) iamRoleName).2
        = (s ++ [InstanceProfile.mk iamRoleName []]).map (attachRoleFn iamRoleName iamRoleName) := by
      rw [h1]
      simp [applyIAMCalls, applyIAMCall]
    obtain ⟨p, hfind2, hpname⟩ := findProfileWithRole_after_create iamRoleName s hfind
    have h2 : GetOrCreateInstanceProfile (honestIAM (applyIAMCalls s
          (GetOrCreateInstanceProfile (honestIAM s) iamRoleName).2)) iamRoleName
        = (.ok p.instanceProfileName,
           [.listInstanceProfiles,
            .info ("Instance profile for IAM role " ++ iamRoleName ++ " already exists.")]) := by
      rw [hs']
      simp only [List.map_append, List.map_cons, List.map_nil] at hfind2
      simp [GetOrCreateInstanceProfile, honestIAM, hfind2]
    refine ⟨by rw [h1], by rw [h2, hpname], ?_⟩
    intro e he
    rw [h2] at he
    simp only [List.mem_cons, List.not_mem_nil, or_false] at he
    rcases he with h | h <;> simp [h, isCreateOrAttachEvent]

/-- Witness for C6 at a concrete input: starting from no profiles, both
calls return the role name. -/
theorem claim6_witness :
    (GetOrCreateInstanceProfile (honestIAM []) "test-role").1 = .ok "test-role"
    ∧ (GetOrCreateInstanceProfile (honestIAM (applyIAMCalls []
         (GetOrCreateInstanceProfile (honestIAM []) "test-role").2)) "test-role").1
        = .ok "test-role" := by
  have h := (claim6_getOrCreateInstanceProfile "test-role").2.2 [] (by rfl)
  exact ⟨h.1, h.2.1⟩

/-! ## Claim C8: malformed tag specifications -/

/-- Claim C8: when the tag-specifications string is non-empty and does
not parse, `CreateAndStartEC2Instance` ends the process fatally with
only the fatal log emitted — in particular no RunInstances call (and no
IAM or describe call) is ever made. -/
theorem claim8_malformed_tags_rejected_before_provisioning (ec2 : EC2Responses)
    (iam : IAMResponses) (parseTags : String → Except String (List TagSpec))
    (ec2AmiId subnetId securityGroupId iamRoleName instanceType userData
      tagSpecifications : String) (fuel : Nat) (e : String)
    (hne : tagSpecifications ≠ "") (hparse : parseTags tagSpecifications = .error e) :
    CreateAndStartEC2Instance ec2 iam parseTags ec2AmiId subnetId securityGroupId
        iamRoleName instanceType userData tagSpecifications fuel
      = (.fatal ("Error parsing tag specifications: " ++ e),
         [.fatalLog ("Error parsing tag specifications: " ++ e)])
    ∧ Event.runInstances ∉ (CreateAndStartEC2Instance ec2 iam parseTags ec2AmiId subnetId
        securityGroupId iamRoleName instanceType userData tagSpecifications fuel).2 := by
  have h : CreateAndStartEC2Instance ec2 iam parseTags ec2AmiId subnetId securityGroupId
      iamRoleName instanceType userData tagSpecifications fuel
      = (.fatal ("Error parsing tag specifications: " ++ e),
         [.fatalLog ("Error parsing tag specifications: " ++ e)]) := by
    simp [CreateAndStartEC2Instance, beq_eq_false_iff_ne, hne, hparse]
  exact ⟨h, by rw [h]; simp⟩

/-- Witness for C8 at a concrete input: a parser rejecting the non-empty
tag string makes the flow fatal with no RunInstances event. -/
theorem claim8_witness :
    (CreateAndStartEC2Instance
        ⟨Except.ok "i-1", fun _ => Except.ok "running", Except.ok ()⟩ (honestIAM [])
        (fun _ => Except.error "bad json") "ami-1" "subnet-1" "sg-1" "" "t2.micro" ""
        "[oops" 3).1
      = .fatal ("Error parsing tag specifications: " ++ "bad json") := by
  have h := claim8_malformed_tags_rejected_before_provisioning
    ⟨Except.ok "i-1", fun _ => Except.ok "running", Except.ok ()⟩ (honestIAM [])
    (fun _ => Except.error "bad json") "ami-1" "subnet-1" "sg-1" "" "t2.micro" ""
    "[oops" 3 "bad json" (by decide) rfl
  rw [h.1]

/-! ## Claims C5 and C10: input handling of command-max-wait-secs -/

/-- Claim C5: a parsed command-max-wait value of at most 5 is raised to
exactly 6 with a logged warning and the run proceeds normally (the
adjustment is non-fatal): the command flow is invoked with 6 and the
success log line reports a 6-second wait; a parsed value of 6 or more is
used unchanged and no warning is emitted. -/
theorem claim5_commandMaxWait_floor (inp : Inputs) (cfg : Except String Unit)
    (ec2 : EC2Responses) (iam : IAMResponses) (ssm : SSMOracle)
    (parseTags : String → Except String (List TagSpec)) (fuel : Nat) (n : Int)
    (hmode : inp.mode = "command") (hid : inp.ec2InstanceId ≠ "") (hcmd : inp.command ≠ "")
    (hparse : atoi inp.commandMaxWaitSecs = .ok n) (hcfg : cfg = .ok ()) :
    (∀ cid, n ≤ 5 →
      (ExecuteCommandOnEC2Instance ssm inp.ec2InstanceId inp.command 6).1 = some (.ok cid) →
      getInputs inp cfg ec2 iam ssm parseTags fuel
        = (.ok, .warning "command-max-wait-secs raised to minimum 6 seconds"
            :: ((ExecuteCommandOnEC2Instance ssm inp.ec2InstanceId inp.command 6).2
              ++ [.info ("Command " ++ inp.command ++ " sent to instance " ++ inp.ec2InstanceId
                    ++ ". Command ID: " ++ cid ++ ". Command wait time: "
                    ++ toString (6 : Int) ++ " secs"),
                  .setOutput "command-id" cid])))
    ∧ (∀ cid, 6 ≤ n →
      (ExecuteCommandOnEC2Instance ssm inp.ec2InstanceId inp.command n).1 = some (.ok cid) →
      getInputs inp cfg ec2 iam ssm parseTags fuel
        = (.ok, (ExecuteCommandOnEC2Instance ssm inp.ec2InstanceId inp.command n).2
            ++ [.info ("Command " ++ inp.command ++ " sent to instance " ++ inp.ec2InstanceId
                  ++ ". Command ID: " ++ cid ++ ". Command wait time: "
                  ++ toString n ++ " secs"),
                .setOutput "command-id" cid])) := by
  constructor
  · intro cid hle hexec
    rcases hE : ExecuteCommandOnEC2Instance ssm inp.ec2InstanceId inp.command 6 with ⟨res, tr⟩
    rw [hE] at hexec
    simp only at hexec
    subst hexec
    simp [getInputs, hmode, hparse, hle, hcfg, modeDispatch,
      beq_eq_false_iff_ne, hid, hcmd, hE]
  · intro cid hge hexec
    rcases hE : ExecuteCommandOnEC2Instance ssm inp.ec2InstanceId inp.command n with ⟨res, tr⟩
    rw [hE] at hexec
    simp only at hexec
    subst hexec
    have hnle : ¬(n ≤ 5) := by omega
    simp [getInputs, hmode, hparse, hnle, hcfg, modeDispatch,
      beq_eq_false_iff_ne, hid, hcmd, hE]

/-- Witness for C5 at a concrete input: a configured value of 3 runs the
command flow with an effective wait of 6 after a warning. -/
theorem claim5_witness :
    getInputs ⟨"command", "", "", "", "", "", "", "", "i-1", "cmd", "3"⟩ (Except.ok ())
        ⟨Except.ok "i-1", fun _ => Except.ok "running", Except.ok ()⟩ (honestIAM [])
        ⟨fun _ => Except.ok [⟨"i-1", "Online"⟩], Except.ok "cid",
          fun _ => ⟨0, "Success", "out", ""⟩⟩
        (fun _ => Except.ok []) 3
      = (.ok, .warning "command-max-wait-secs raised to minimum 6 seconds"
          :: ((ExecuteCommandOnEC2Instance
                ⟨fun _ => Except.ok [⟨"i-1", "Online"⟩], Except.ok "cid",
                  fun _ => ⟨0, "Success", "out", ""⟩⟩ "i-1" "cmd" 6).2
            ++ [.info ("Command " ++ "cmd" ++ " sent to instance " ++ "i-1"
                  ++ ". Command ID: " ++ "cid" ++ ". Command wait time: "
                  ++ toString (6 : Int) ++ " secs"),
                .setOutput "command-id" "cid"])) := by
  exact (claim5_commandMaxWait_floor
    ⟨"command", "", "", "", "", "", "", "", "i-1", "cmd", "3"⟩ (Except.ok ())
    ⟨Except.ok "i-1", fun _ => Except.ok "running", Except.ok ()⟩ (honestIAM [])
    ⟨fun _ => Except.ok [⟨"i-1", "Online"⟩], Except.ok "cid",
      fun _ => ⟨0, "Success", "out", ""⟩⟩
    (fun _ => Except.ok []) 3 3 rfl (by decide) (by decide) (by rfl) rfl).1
    "cid" (by decide) (by rfl)

/-- Claim C10: for every mode value (the empty string is rejected
earlier as a missing mode), a command-max-wait-secs input that fails to
parse — the empty string included — makes `getInputs` return the parse
error with an empty trace: no warning, no config, no mode branch and no
collaborator call happens, and no default of 300 is substituted. -/
theorem claim10_parse_error_before_dispatch (inp : Inputs) (cfg : Except String Unit)
    (ec2 : EC2Responses) (iam : IAMResponses) (ssm : SSMOracle)
    (parseTags : String → Except String (List TagSpec)) (fuel : Nat) (e : String)
    (hmode : inp.mode ≠ "") (hparse : atoi inp.commandMaxWaitSecs = .error e) :
    getInputs inp cfg ec2 iam ssm parseTags fuel = (.err e, []) := by
  simp [getInputs, beq_eq_false_iff_ne, hmode, hparse]

/-- Witness for C10 at a concrete input: stop mode with an empty
command-max-wait-secs input returns the parse error untouched. -/
theorem claim10_witness :
    getInputs ⟨"stop", "", "", "", "", "", "", "", "i-1", "", ""⟩ (Except.ok ())
        ⟨Except.ok "i-1", fun _ => Except.ok "running", Except.ok ()⟩ (honestIAM [])
        ⟨fun _ => Except.ok [], Except.ok "cid", fun _ => ⟨0, "Success", "", ""⟩⟩
        (fun _ => Except.ok []) 3
      = (.err "strconv.Atoi: parsing: invalid syntax", []) := by
  exact claim10_parse_error_before_dispatch
    ⟨"stop", "", "", "", "", "", "", "", "i-1", "", ""⟩ (Except.ok ())
    ⟨Except.ok "i-1", fun _ => Except.ok "running", Except.ok ()⟩ (honestIAM [])
    ⟨fun _ => Except.ok [], Except.ok "cid", fun _ => ⟨0, "Success", "", ""⟩⟩
    (fun _ => Except.ok []) 3 "strconv.Atoi: parsing: invalid syntax"
    (by decide) (by rfl)

end EC2Runner

